import Mathlib

/-!
Verification development for the Taskline backend's real-time chat core.

The definitions below are a shallow embedding of the Rust source:
  * src/chat.rs           — HTTP handlers (POST /messages/:chat_id, GET /messages/:chat_id)
  * src/chat_server.rs    — the ChatServer actor and its message handlers
  * src/web_socket_server.rs — the per-socket actor and its inbound frame handler

Modelling conventions:
  * Uuid values and Mongo object ids are opaque strings.
  * Timestamps (chrono DateTime) are naturals (milliseconds).
  * The Mongo collections "chats", "messages" and "chat_users" are lists of
    documents; find_one returns the first list element matching the filter,
    insert_one appends, replace_one / delete_one act on the first match.
  * Database I/O errors are not injected (every store call succeeds); the
    claims under study do not concern the storage-failure branches.
  * An actix Recipient handle (a socket endpoint) is an opaque Nat.
  * Freshly minted Uuids and the current time are passed as parameters.
-/

namespace Taskline

/-- Embeds the Chat document of chat.rs / chat_server.rs (collection "chats"). -/
structure Chat where
  id_chat : String
  participants : List String
  is_group : Bool
  group_name : Option String
  created_at : Nat
  last_message_at : Nat
deriving Repr, DecidableEq

/-- Embeds the message document (chat.rs DBMessage, chat_server.rs Message;
collection "messages"). -/
structure DBMessage where
  id : String
  id_chat : String
  sender_id : String
  content : String
  created_at : Nat
  msg_type : String
  attachments : Option String
deriving Repr, DecidableEq

/-- Embeds the ChatUser document of chat_server.rs (collection "chat_users"). -/
structure ChatUser where
  chat_id : String
  user_id : String
  joined_at : Nat
deriving Repr, DecidableEq

/-- Embeds the MessageResponse DTO of chat_server.rs. -/
structure MessageResponse where
  id : String
  id_chat : String
  sender_id : String
  content : String
  created_at : Nat
  msg_type : String
  attachments : Option String
deriving Repr, DecidableEq

/-- The document store reachable through MongoDB (chat_db.rs): the three
collections the chat core touches. -/
structure Store where
  chats : List Chat
  messages : List DBMessage
  chat_users : List ChatUser
deriving Repr, DecidableEq

/-- Embeds find_one on "chats" with filter by _id: first matching document. -/
def findOneChat (st : Store) (chatId : String) : Option Chat :=
  st.chats.find? (fun c => c.id_chat == chatId)

/-- Embeds find_one on "chats" with the combined filter used by chat.rs
create_message: _id equals the path chat id AND participants contains the
body sender id. -/
def findOneChatWithParticipant (st : Store) (chatId sender : String) : Option Chat :=
  st.chats.find? (fun c => c.id_chat == chatId && c.participants.contains sender)

/-- Embeds find_one on "messages" with filter by _id: first matching document. -/
def findOneMessage (st : Store) (messageId : String) : Option DBMessage :=
  st.messages.find? (fun m => m.id == messageId)

/-- Embeds replace_one on "messages": replace the first document whose _id
matches; no-op when none matches. -/
def replaceOneMessage : List DBMessage → String → DBMessage → List DBMessage
  | [], _, _ => []
  | m :: ms, mid, new => if m.id == mid then new :: ms else m :: replaceOneMessage ms mid new

/-- Embeds delete_one on "messages": remove the first document whose _id
matches; no-op when none matches. -/
def deleteOneMessage : List DBMessage → String → List DBMessage
  | [], _ => []
  | m :: ms, mid => if m.id == mid then ms else m :: deleteOneMessage ms mid

/-- Embeds ChatServer.sessions of chat_server.rs: a HashMap from user id
(Uuid) to a single Recipient handle. Modelled as an association list with at
most one entry per key; the operations below reproduce HashMap insert (which
overwrites an existing entry), remove and get. -/
abbrev Sessions := List (String × Nat)

/-- Embeds HashMap::get on the sessions map. -/
def sessionsGet (s : Sessions) (u : String) : Option Nat :=
  (s.find? (fun p => p.1 == u)).map (fun p => p.2)

/-- Embeds HashMap::insert on the sessions map: overwrite the entry for the
key when present, otherwise add one. -/
def sessionsInsert : Sessions → String → Nat → Sessions
  | [], u, a => [(u, a)]
  | p :: ps, u, a => if p.1 == u then (u, a) :: ps else p :: sessionsInsert ps u a

/-- Embeds HashMap::remove on the sessions map. -/
def sessionsRemove (s : Sessions) (u : String) : Sessions :=
  s.filter (fun p => p.1 != u)

/-- One outbound ChatMessage push as sent by the ClientMessage handler of
chat_server.rs: addr.do_send(ChatMessage with sender_id, chat_id, message),
where addr is the Recipient registered for to_user in the sessions map. -/
structure Push where
  endpoint : Nat
  to_user : String
  sender_id : String
  chat_id : String
  message : String
deriving Repr, DecidableEq

/-- Embeds the ClientMessage actor message of chat_server.rs (sender_id,
id_chat, message). The web_socket_server.rs revision also carries a
recipient_id field, which the ChatServer handler never reads. -/
structure ClientMessage where
  sender_id : String
  id_chat : String
  message : String
deriving Repr, DecidableEq

/-- Embeds the ClientMessage handler of chat_server.rs: look the chat up by
_id (drop the frame when absent), reject when the sender is not a
participant, otherwise insert the message document and do_send a ChatMessage
to the session registered for each participant of the chat. newId is the
freshly minted message Uuid and now the wall-clock timestamp. -/
def handleClientMessage (st : Store) (sessions : Sessions) (msg : ClientMessage)
    (newId : String) (now : Nat) : Store × List Push :=
  match findOneChat st msg.id_chat with
  | none => (st, [])
  | some chat =>
    if chat.participants.contains msg.sender_id then
      let m : DBMessage :=
        { id := newId, id_chat := msg.id_chat, sender_id := msg.sender_id,
          content := msg.message, created_at := now, msg_type := "text",
          attachments := none }
      let pushes := chat.participants.filterMap (fun p =>
        (sessionsGet sessions p).map (fun e =>
          { endpoint := e, to_user := p, sender_id := msg.sender_id,
            chat_id := msg.id_chat, message := msg.message }))
      ({ st with messages := st.messages ++ [m] }, pushes)
    else (st, [])

/-- Embeds the CreateMessage handler of chat_server.rs: look the chat up by
_id (error when absent), error when the user is not a participant, otherwise
insert the message document and return its MessageResponse. The handler body
contains no session send, so the push list it produces is empty. -/
def handleCreateMessage (st : Store) (user_id chat_id content : String)
    (attachments : Option String) (newId : String) (now : Nat) :
    Except Unit MessageResponse × Store × List Push :=
  match findOneChat st chat_id with
  | none => (Except.error (), st, [])
  | some chat =>
    if chat.participants.contains user_id then
      let m : DBMessage :=
        { id := newId, id_chat := chat_id, sender_id := user_id,
          content := content, created_at := now, msg_type := "text",
          attachments := attachments }
      (Except.ok
        { id := newId, id_chat := chat_id, sender_id := user_id,
          content := content, created_at := now, msg_type := "text",
          attachments := attachments },
       { st with messages := st.messages ++ [m] }, [])
    else (Except.error (), st, [])

/-- Embeds the UpdateMessage handler of chat_server.rs: find the message by
_id (error when absent), error when the stored sender_id differs from the
requesting user, otherwise replace_one with the content updated. -/
def handleUpdateMessage (st : Store) (user_id message_id new_content : String) :
    Except Unit MessageResponse × Store :=
  match findOneMessage st message_id with
  | none => (Except.error (), st)
  | some m =>
    if m.sender_id == user_id then
      let m2 : DBMessage := { m with content := new_content }
      (Except.ok
        { id := m2.id, id_chat := m2.id_chat, sender_id := m2.sender_id,
          content := m2.content, created_at := m2.created_at,
          msg_type := m2.msg_type, attachments := m2.attachments },
       { st with messages := replaceOneMessage st.messages message_id m2 })
    else (Except.error (), st)

/-- Embeds the DeleteMessage handler of chat_server.rs: find the message by
_id (error when absent), error when the stored sender_id differs from the
requesting user, otherwise delete_one. -/
def handleDeleteMessage (st : Store) (user_id message_id : String) :
    Except Unit Unit × Store :=
  match findOneMessage st message_id with
  | none => (Except.error (), st)
  | some m =>
    if m.sender_id == user_id then
      (Except.ok (), { st with messages := deleteOneMessage st.messages message_id })
    else (Except.error (), st)

/-- Embeds the Connect handler of chat_server.rs: insert the Recipient into
the sessions map only when a chat_users document matches the (chat_id,
user_id) pair; otherwise the connect is denied and the map is unchanged. -/
def handleConnect (st : Store) (sessions : Sessions) (user_id chat_id : String)
    (addr : Nat) : Sessions :=
  if st.chat_users.any (fun cu => cu.chat_id == chat_id && cu.user_id == user_id) then
    sessionsInsert sessions user_id addr
  else sessions

/-- Embeds the Disconnect handler of chat_server.rs: sessions.remove of the
user id carried by the Disconnect message (the message carries no endpoint). -/
def handleDisconnect (sessions : Sessions) (user_id : String) : Sessions :=
  sessionsRemove sessions user_id

/-- Outcome of the POST /messages/:chat_id handler of chat.rs: 200 with the
MessageResponse, 400 when the combined existence-and-membership query finds
no document, 500 when the actor round trip errs. -/
inductive PostMessageResult where
  | ok (resp : MessageResponse)
  | badRequest
  | serverError
deriving Repr, DecidableEq

/-- HTTP status code of a PostMessageResult. -/
def PostMessageResult.status : PostMessageResult → Nat
  | .ok _ => 200
  | .badRequest => 400
  | .serverError => 500

/-- Embeds create_message of chat.rs (POST /messages/:chat_id). authUser is
the identity the auth middleware of main.rs placed in the request
extensions; the handler receives the request but never reads that identity.
The membership pre-check queries "chats" for a document whose _id is the
path chat id and whose participants contain the body sender_id; when none
matches the handler answers 400, otherwise it sends CreateMessage to the
ChatServer and maps Ok to 200 and Err to 500. -/
def create_message (st : Store) (authUser : Option String) (chat_id : String)
    (sender_id content : String) (newId : String) (now : Nat) :
    PostMessageResult × Store × List Push :=
  match findOneChatWithParticipant st chat_id sender_id with
  | none => (PostMessageResult.badRequest, st, [])
  | some _ =>
    match handleCreateMessage st sender_id chat_id content none newId now with
    | (Except.ok r, st2, ps) => (PostMessageResult.ok r, st2, ps)
    | (Except.error _, st2, ps) => (PostMessageResult.serverError, st2, ps)

/-- Embeds get_messages of chat.rs (GET /messages/:chat_id): filter the
"messages" collection by id_chat and answer 200 with the matching documents;
the handler never looks the chat itself up. -/
def get_messages (st : Store) (chat_id : String) : Nat × List DBMessage :=
  (200, st.messages.filter (fun m => m.id_chat == chat_id))

/-- Minimal JSON value model for inbound socket text frames. -/
inductive Json where
  | str (s : String)
  | num (n : Int)
  | bool (b : Bool)
  | null
  | arr (xs : List Json)
  | obj (fields : List (String × Json))

/-- Lookup of a key in a JSON object's field list (first occurrence). -/
def jsonLookup (fields : List (String × Json)) (key : String) : Option Json :=
  (fields.find? (fun kv => kv.1 == key)).map (fun kv => kv.2)

/-- Projection of a JSON value to a string. -/
def Json.asString : Json → Option String
  | .str s => some s
  | _ => none

/-- Embeds the IncomingMessage struct of web_socket_server.rs, the only
shape serde_json is asked to parse an inbound text frame into: fields
recipient_id (Uuid), id_chat (Uuid) and message (String). -/
structure IncomingMessage where
  recipient_id : String
  id_chat : String
  message : String
deriving Repr, DecidableEq

/-- Embeds serde_json::from_str::<IncomingMessage>: succeeds exactly on a
JSON object carrying string fields recipient_id, id_chat and message
(unknown fields are ignored, as serde does by default; Uuid well-formedness
of the two id strings is abstracted away). -/
def parseIncomingMessage : Json → Option IncomingMessage
  | .obj fields => do
    let r ← jsonLookup fields "recipient_id" >>= Json.asString
    let c ← jsonLookup fields "id_chat" >>= Json.asString
    let m ← jsonLookup fields "message" >>= Json.asString
    pure { recipient_id := r, id_chat := c, message := m }
  | _ => none

/-- Embeds the Text arm of the StreamHandler of web_socket_server.rs: parse
the frame as IncomingMessage; on success do_send a ClientMessage whose
sender is the socket's own user id to the ChatServer (whose handler is
embedded by handleClientMessage); on parse failure the frame is dropped with
no effect. -/
def handleTextFrame (st : Store) (sessions : Sessions) (selfId : String)
    (frame : Json) (newId : String) (now : Nat) : Store × List Push :=
  match parseIncomingMessage frame with
  | some im =>
    handleClientMessage st sessions
      { sender_id := selfId, id_chat := im.id_chat, message := im.message } newId now
  | none => (st, [])

/-! Concrete fixtures used by counterexamples and witnesses. -/

/-- A two-party conversation between u1 and u2, last active at time 5. -/
def chatC1 : Chat :=
  { id_chat := "c1", participants := [ "u1", "u2" ], is_group := false,
    group_name := none, created_at := 0, last_message_at := 5 }

/-- A two-party conversation between u1 and u3 (u2 is not a member). -/
def chatC2 : Chat :=
  { id_chat := "c2", participants := [ "u1", "u3" ], is_group := false,
    group_name := none, created_at := 0, last_message_at := 0 }

/-- A three-party group conversation. -/
def chatC3 : Chat :=
  { id_chat := "c3", participants := [ "u1", "u2", "u3" ], is_group := true,
    group_name := some "grp", created_at := 0, last_message_at := 0 }

/-- Store holding chatC1, no messages, and chat_users rows for u1 and u2. -/
def storeC1 : Store :=
  { chats := [ chatC1 ], messages := [],
    chat_users := [ { chat_id := "c1", user_id := "u1", joined_at := 0 },
                    { chat_id := "c1", user_id := "u2", joined_at := 0 } ] }

/-- Store holding chatC2 only. -/
def storeC2 : Store :=
  { chats := [ chatC2 ], messages := [], chat_users := [] }

/-- Store holding chatC3 only. -/
def storeC3 : Store :=
  { chats := [ chatC3 ], messages := [], chat_users := [] }

/-- Store with no documents at all. -/
def storeEmpty : Store :=
  { chats := [], messages := [], chat_users := [] }

/-- Sessions with u1 live at endpoint 1 and u2 live at endpoint 2. -/
def sessionsBoth : Sessions := [ ( "u1", 1 ), ( "u2", 2 ) ]

/-- Sessions with u1, u2, u3 live at endpoints 1, 2, 3. -/
def sessionsThree : Sessions := [ ( "u1", 1 ), ( "u2", 2 ), ( "u3", 3 ) ]

/-- The message document minted as m1 for conversation c1 at time 10. -/
def msgM1 : DBMessage :=
  { id := "m1", id_chat := "c1", sender_id := "u1", content := "hi",
    created_at := 10, msg_type := "text", attachments := none }

/-- The MessageResponse returned for msgM1. -/
def msgRespM1 : MessageResponse :=
  { id := "m1", id_chat := "c1", sender_id := "u1", content := "hi",
    created_at := 10, msg_type := "text", attachments := none }

/-- storeC1 after msgM1 is appended. -/
def storeC1After : Store :=
  { chats := storeC1.chats, messages := [ msgM1 ], chat_users := storeC1.chat_users }

/-- Fields of a signaling frame: signalType and chat_id present, none of the
IncomingMessage fields. -/
def signalFields : List (String × Json) :=
  [ ( "signalType", Json.str "offer" ), ( "chat_id", Json.str "c3" ),
    ( "sdp", Json.str "v=0" ) ]

/-- The signaling frame itself. -/
def signalFrame : Json := Json.obj signalFields

/-- Fields of a chat frame in the shape the spec documents: chat_id and
content, no signalType. -/
def chatFrameFields : List (String × Json) :=
  [ ( "chat_id", Json.str "c1" ), ( "content", Json.str "hi" ) ]

/-- The spec-shaped chat frame itself. -/
def chatFrame : Json := Json.obj chatFrameFields

/-- Fields of a frame in the shape the code actually parses: recipient_id,
id_chat and message. -/
def sendFields : List (String × Json) :=
  [ ( "recipient_id", Json.str "u2" ), ( "id_chat", Json.str "c1" ),
    ( "message", Json.str "hello" ) ]

/-- C1 counterexample: the POST /messages path persists the message and
answers 200, but although participant u2 holds the live endpoint 2
throughout, the operation emits no push at all — endpoint 2 receives zero
chat pushes for the message, not exactly one. -/
theorem http_post_fanout_counterexample :
    (create_message storeC1 none "c1" "u1" "hi" "m1" 10).1.status = 200 ∧
    (create_message storeC1 none "c1" "u1" "hi" "m1" 10).2.1.messages = [ msgM1 ] ∧
    sessionsGet sessionsBoth "u2" = some 2 ∧
    ((create_message storeC1 none "c1" "u1" "hi" "m1" 10).2.2).countP
      (fun p => p.endpoint == 2) = 0 := by
  decide

/-- C2 counterexample: a socket chat event from u1 in conversation c1 is
pushed back to u1's own endpoint — the push with sender_id u1 is delivered
to the endpoint owned by u1, violating originator exclusion. -/
theorem socket_echo_counterexample :
    ({ endpoint := 1, to_user := "u1", sender_id := "u1", chat_id := "c1",
       message := "hi" } : Push) ∈
      (handleClientMessage storeC1 sessionsBoth
        { sender_id := "u1", id_chat := "c1", message := "hi" } "m1" 10).2 := by
  decide

/-- C3 counterexample: registering endpoint 1 and then endpoint 2 for the
same user u1 leaves the registry holding only endpoint 2 (the map holds at
most one endpoint per user, so the first registration is silently dropped),
and the Disconnect message — which carries only the user id, as sent by the
close of either socket — removes that remaining endpoint. -/
theorem registry_overwrite_counterexample :
    handleConnect storeC1 (handleConnect storeC1 [] "u1" "c1" 1) "u1" "c1" 2
      = [ ( "u1", 2 ) ] ∧
    handleDisconnect [ ( "u1", 2 ) ] "u1" = [] := by
  decide

/-- C4 counterexample: a frame carrying signalType and chat_id is not
relayed: with conversation c3 existing and participants u2 and u3 live, the
socket handler fails to parse the frame as IncomingMessage and drops it,
leaving the store unchanged and emitting no push. -/
theorem signal_frame_dropped_counterexample :
    handleTextFrame storeC3 sessionsThree "u1" signalFrame "m1" 5
      = ( storeC3, [] ) := by
  decide

/-- C6 counterexample: a POST whose body sender_id u1 differs from the
authenticated user id u9 is accepted with 200 and the message is persisted —
it is not rejected with 401. -/
theorem sender_mismatch_accepted_counterexample :
    (create_message storeC1 (some "u9") "c1" "u1" "hi" "m1" 10).1.status = 200 ∧
    (create_message storeC1 (some "u9") "c1" "u1" "hi" "m1" 10).2.1.messages
      = [ msgM1 ] := by
  decide

/-- C7 counterexample: for a conversation id absent from the store, POST
/messages answers 400 (not 404) and GET /messages answers 200 with a body
(not 404). -/
theorem absent_conversation_counterexample :
    (create_message storeEmpty none "c9" "u1" "hi" "m1" 10).1.status = 400 ∧
    (get_messages storeEmpty "c9").1 = 200 ∧
    (get_messages storeEmpty "c9").2 = [] := by
  decide

/-- C8 counterexample: a frame of the shape the spec documents — chat_id and
content, no signalType — is dropped as unparseable: with conversation c1
existing and its participants live, the handler leaves the store unchanged
and emits no push instead of processing a message send. -/
theorem chat_frame_dropped_counterexample :
    handleTextFrame storeC1 sessionsBoth "u1" chatFrame "m1" 10
      = ( storeC1, [] ) := by
  decide

/-- C9 counterexample: a successful append at time 10 to conversation c1,
whose last_message_at is 5, leaves the conversation document untouched —
last_message_at stays 5 instead of advancing to the message timestamp. -/
theorem last_activity_counterexample :
    (create_message storeC1 none "c1" "u1" "hi" "m1" 10).1.status = 200 ∧
    (create_message storeC1 none "c1" "u1" "hi" "m1" 10).2.1.chats
      = [ chatC1 ] ∧
    chatC1.last_message_at = 5 := by
  decide

/-! Helper lemmas about the sessions map. -/

theorem find?_filter_of_imp {α : Type} (l : List α) (p q : α → Bool)
    (h : ∀ a, q a = true → p a = true) : (l.filter p).find? q = l.find? q := by
  induction l with
  | nil => rfl
  | cons x xs ih =>
    by_cases hp : p x = true
    · rw [List.filter_cons_of_pos hp]
      by_cases hq : q x = true
      · rw [List.find?_cons_of_pos _ hq, List.find?_cons_of_pos _ hq]
      · rw [List.find?_cons_of_neg _ hq, List.find?_cons_of_neg _ hq]
        exact ih
    · have hq : ¬ q x = true := fun hqx => hp (h x hqx)
      rw [List.filter_cons_of_neg hp, List.find?_cons_of_neg _ hq]
      exact ih

theorem sessionsGet_insert_self (s : Sessions) (u : String) (a : Nat) :
    sessionsGet (sessionsInsert s u a) u = some a := by
  induction s with
  | nil => simp [sessionsInsert, sessionsGet]
  | cons p ps ih =>
    by_cases h : p.1 = u
    · simp [sessionsInsert, sessionsGet, h]
    · simp only [sessionsInsert, sessionsGet] at ih ⊢
      simp only [h, if_false, beq_iff_eq]
      rw [List.find?_cons_of_neg _ (by simp [h])]
      simpa [beq_iff_eq] using ih

theorem sessionsGet_insert_other (s : Sessions) (u v : String) (a : Nat)
    (hne : v ≠ u) : sessionsGet (sessionsInsert s u a) v = sessionsGet s v := by
  induction s with
  | nil =>
    simp only [sessionsInsert, sessionsGet]
    rw [List.find?_cons_of_neg _ (by simp [Ne.symm hne])]
  | cons p ps ih =>
    simp only [sessionsInsert, sessionsGet] at ih ⊢
    by_cases h : p.1 = u
    · rw [if_pos (by simp [h])]
      have hu : (u == v) = false := by
        simp only [beq_eq_false_iff_ne, ne_eq]
        exact fun hv => hne hv.symm
      have hp : (p.1 == v) = false := by
        simp only [beq_eq_false_iff_ne, ne_eq, h]
        exact fun hv => hne hv.symm
      simp [List.find?_cons, hu, hp]
    · rw [if_neg (by simp [h])]
      by_cases h2 : p.1 = v
      · simp [List.find?_cons, h2]
      · have hp : (p.1 == v) = false := by simp [h2]
        simp only [List.find?_cons, hp]
        exact ih

theorem sessionsGet_remove_self (s : Sessions) (u : String) :
    sessionsGet (sessionsRemove s u) u = none := by
  have hfind : List.find? (fun p => p.1 == u) (List.filter (fun p => p.1 != u) s)
      = none := by
    rw [List.find?_eq_none]
    intro p hp
    have h2 := (List.mem_filter.mp hp).2
    simp only [bne_iff_ne, ne_eq] at h2
    simp [h2]
  simp [sessionsGet, sessionsRemove, hfind]

theorem sessionsGet_remove_other (s : Sessions) (u v : String)
    (hne : v ≠ u) : sessionsGet (sessionsRemove s u) v = sessionsGet s v := by
  have hfind := find?_filter_of_imp s (fun p => p.1 != u) (fun p => p.1 == v)
    (by intro a ha; simp only [beq_iff_eq] at ha; simp [ha, hne])
  simp only [sessionsGet, sessionsRemove, hfind]

/-- C3 amended: the session registry maps each user to at most one endpoint.
A permitted Connect overwrites whatever endpoint the user previously held,
and Disconnect — which carries only the user id — removes the user's single
entry regardless of which socket's close triggered it; entries of other
users are untouched by both operations. -/
theorem registry_overwrites_and_disconnect_clears (st : Store) (sessions : Sessions)
    (u v cid : String) (a : Nat) (hne : v ≠ u)
    (hcu : (st.chat_users.any (fun cu => cu.chat_id == cid && cu.user_id == u)) = true) :
    sessionsGet (handleConnect st sessions u cid a) u = some a ∧
    sessionsGet (handleDisconnect sessions u) u = none ∧
    sessionsGet (handleDisconnect sessions u) v = sessionsGet sessions v ∧
    sessionsGet (sessionsInsert sessions u a) v = sessionsGet sessions v := by
  refine ⟨?_, ?_, ?_, ?_⟩
  · rw [handleConnect, if_pos hcu]
    exact sessionsGet_insert_self sessions u a
  · exact sessionsGet_remove_self sessions u
  · exact sessionsGet_remove_other sessions u v hne
  · exact sessionsGet_insert_other sessions u v a hne

/-- C3 amended, witness: concrete run at storeC1 with users u1 and u2. -/
theorem registry_overwrites_and_disconnect_clears_witness :
    sessionsGet (handleConnect storeC1 sessionsBoth "u1" "c1" 9) "u1" = some 9 ∧
    sessionsGet (handleDisconnect sessionsBoth "u1") "u1" = none ∧
    sessionsGet (handleDisconnect sessionsBoth "u1") "u2"
      = sessionsGet sessionsBoth "u2" ∧
    sessionsGet (sessionsInsert sessionsBoth "u1" 9) "u2"
      = sessionsGet sessionsBoth "u2" :=
  registry_overwrites_and_disconnect_clears storeC1 sessionsBoth "u1" "u2" "c1" 9
    (by decide) (by decide)

/-- C2 amended: the socket dispatcher performs no originator exclusion.
Whenever the chat exists, the sender is a participant, and the sender has a
registered endpoint, that very endpoint receives the push carrying the
sender's own sender_id. -/
theorem socket_fanout_includes_sender (st : Store) (sessions : Sessions)
    (msg : ClientMessage) (newId : String) (now : Nat) (chat : Chat) (e : Nat)
    (hfind : findOneChat st msg.id_chat = some chat)
    (hmem : msg.sender_id ∈ chat.participants)
    (hsess : sessionsGet sessions msg.sender_id = some e) :
    ({ endpoint := e, to_user := msg.sender_id, sender_id := msg.sender_id,
       chat_id := msg.id_chat, message := msg.message } : Push) ∈
      (handleClientMessage st sessions msg newId now).2 := by
  have hcon : chat.participants.contains msg.sender_id = true := by
    simpa using hmem
  simp only [handleClientMessage, hfind, hcon, if_true]
  simp only [List.mem_filterMap]
  exact ⟨msg.sender_id, hmem, by rw [hsess]; rfl⟩

/-- C2 amended, witness: in conversation c1 with u1 live at endpoint 1, the
push for u1's own event lands on u1's endpoint. -/
theorem socket_fanout_includes_sender_witness :
    ({ endpoint := 1, to_user := "u1", sender_id := "u1", chat_id := "c1",
       message := "yo" } : Push) ∈
      (handleClientMessage storeC1 sessionsBoth
        { sender_id := "u1", id_chat := "c1", message := "yo" } "m2" 11).2 :=
  socket_fanout_includes_sender storeC1 sessionsBoth
    { sender_id := "u1", id_chat := "c1", message := "yo" } "m2" 11 chatC1 1
    (by decide) (by decide) (by decide)

/-- C4 amended: an inbound text frame that is a JSON object without a
recipient_id field — in particular any signaling frame carrying only
signalType, chat_id and payload fields — fails to parse as IncomingMessage
and is silently dropped: the store is unchanged, nothing is relayed. -/
theorem frame_without_recipient_id_dropped (st : Store) (sessions : Sessions)
    (selfId : String) (fields : List (String × Json)) (newId : String) (now : Nat)
    (h : jsonLookup fields "recipient_id" = none) :
    handleTextFrame st sessions selfId (Json.obj fields) newId now = (st, []) := by
  unfold handleTextFrame parseIncomingMessage
  simp [h]

/-- C4 amended, witness: the concrete signaling frame is dropped even with
the target conversation present and all its participants live. -/
theorem frame_without_recipient_id_dropped_witness :
    handleTextFrame storeC3 sessionsThree "u1" (Json.obj signalFields) "m1" 5
      = ( storeC3, [] ) :=
  frame_without_recipient_id_dropped storeC3 sessionsThree "u1" signalFields "m1" 5
    (by rfl)

/-- C8 amended: the frame shape the socket actually accepts is a JSON object
with string fields recipient_id, id_chat and message; such a frame is
processed as a message send by the socket's own user against id_chat (the
parsed recipient_id is never read by the ChatServer handler). -/
theorem recipient_frame_processed_as_send (st : Store) (sessions : Sessions)
    (selfId : String) (fields : List (String × Json)) (r c m : String)
    (newId : String) (now : Nat)
    (h1 : jsonLookup fields "recipient_id" = some (Json.str r))
    (h2 : jsonLookup fields "id_chat" = some (Json.str c))
    (h3 : jsonLookup fields "message" = some (Json.str m)) :
    handleTextFrame st sessions selfId (Json.obj fields) newId now =
      handleClientMessage st sessions
        { sender_id := selfId, id_chat := c, message := m } newId now := by
  unfold handleTextFrame parseIncomingMessage
  simp [h1, h2, h3, Json.asString]

/-- C8 amended, witness: a concrete recipient_id/id_chat/message frame from
u1 is handled exactly as the corresponding ClientMessage. -/
theorem recipient_frame_processed_as_send_witness :
    handleTextFrame storeC1 sessionsBoth "u1" (Json.obj sendFields) "m2" 11 =
      handleClientMessage storeC1 sessionsBoth
        { sender_id := "u1", id_chat := "c1", message := "hello" } "m2" 11 :=
  recipient_frame_processed_as_send storeC1 sessionsBoth "u1" sendFields
    "u2" "c1" "hello" "m2" 11 (by rfl) (by rfl) (by rfl)

/-- C5 confirmed: when no chat document with the addressed id lists the
sender as a participant, both ingress paths reject the append leaving the
store untouched: the HTTP handler answers 400 with nothing written and no
push, and the socket handler drops the event with nothing written and no
push. -/
theorem nonmember_append_rejected (st : Store) (sess : Sessions)
    (auth : Option String) (cid sender body mid : String) (now : Nat)
    (h : ∀ c ∈ st.chats, c.id_chat = cid → sender ∉ c.participants) :
    create_message st auth cid sender body mid now
      = (PostMessageResult.badRequest, st, []) ∧
    handleClientMessage st sess
      { sender_id := sender, id_chat := cid, message := body } mid now
      = (st, []) := by
  have hfp : findOneChatWithParticipant st cid sender = none := by
    rw [findOneChatWithParticipant, List.find?_eq_none]
    intro c hc hp
    simp only [Bool.and_eq_true, beq_iff_eq] at hp
    exact h c hc hp.1 (by simpa using hp.2)
  constructor
  · rw [create_message, hfp]
  · cases hc : findOneChat st cid with
    | none => simp only [handleClientMessage, hc]
    | some chat =>
      have hmem : chat ∈ st.chats := List.mem_of_find?_eq_some hc
      have hid : chat.id_chat = cid := by
        have := List.find?_some hc
        simpa using this
      have hnot : sender ∉ chat.participants := h chat hmem hid
      have hcon : chat.participants.contains sender = false := by
        simpa using hnot
      simp [handleClientMessage, hc, hcon, hnot]

/-- C5 confirmed, witness: u2 is not a participant of conversation c2, so
both paths reject with nothing written and no pushes. -/
theorem nonmember_append_rejected_witness :
    create_message storeC2 none "c2" "u2" "x" "m1" 10
      = (PostMessageResult.badRequest, storeC2, []) ∧
    handleClientMessage storeC2 sessionsBoth
      { sender_id := "u2", id_chat := "c2", message := "x" } "m1" 10
      = (storeC2, []) :=
  nonmember_append_rejected storeC2 sessionsBoth none "c2" "u2" "x" "m1" 10
    (by decide)

/-- C10 confirmed: when no stored message with the given id has the
requesting user as its sender — the message is absent or was sent by someone
else — both UpdateMessage and DeleteMessage return an error and leave the
store unchanged; hence either operation succeeds only when the requester is
the message's sender. -/
theorem message_mutation_requires_sender (st : Store) (u mid newc : String)
    (h : ∀ m, findOneMessage st mid = some m → m.sender_id ≠ u) :
    handleUpdateMessage st u mid newc = (Except.error (), st) ∧
    handleDeleteMessage st u mid = (Except.error (), st) := by
  cases hf : findOneMessage st mid with
  | none =>
    constructor
    · simp only [handleUpdateMessage, hf]
    · simp only [handleDeleteMessage, hf]
  | some m =>
    have hne : m.sender_id ≠ u := h m hf
    have hbeq : (m.sender_id == u) = false := by simpa using hne
    constructor
    · simp [handleUpdateMessage, hf, hbeq]
    · simp [handleDeleteMessage, hf, hbeq]

/-- C10 confirmed, witness: u2 can neither update nor delete msgM1, which
was sent by u1; the store is unchanged. -/
theorem message_mutation_requires_sender_witness :
    handleUpdateMessage storeC1After "u2" "m1" "edited"
      = (Except.error (), storeC1After) ∧
    handleDeleteMessage storeC1After "u2" "m1"
      = (Except.error (), storeC1After) :=
  message_mutation_requires_sender storeC1After "u2" "m1" "edited" (by decide)

/-- C1 amended: a successful POST /messages persists exactly one new message
document and returns its representation, but triggers no fan-out at all: the
HTTP path emits no push, whatever sessions are live (pushes exist only on
the socket path). -/
theorem create_message_persists_without_fanout (st : Store) (auth : Option String)
    (cid sid body mid : String) (now : Nat) :
    (create_message st auth cid sid body mid now).2.2 = [] ∧
    ∀ r st2 ps,
      create_message st auth cid sid body mid now
        = (PostMessageResult.ok r, st2, ps) →
      r = { id := mid, id_chat := cid, sender_id := sid, content := body,
            created_at := now, msg_type := "text", attachments := none } ∧
      st2.messages = st.messages ++
        [ { id := mid, id_chat := cid, sender_id := sid, content := body,
            created_at := now, msg_type := "text", attachments := none } ] := by
  cases hfp : findOneChatWithParticipant st cid sid with
  | none => simp [create_message, hfp]
  | some c0 =>
    cases hc : findOneChat st cid with
    | none => simp [create_message, handleCreateMessage, hfp, hc]
    | some chat =>
      by_cases hmem : sid ∈ chat.participants
      · simp [create_message, handleCreateMessage, hfp, hc, hmem]
        intro r st2 ps h1 h2 h3
        subst h1 h2
        simp
      · simp [create_message, handleCreateMessage, hfp, hc, hmem]

/-- C1 amended, witness: the concrete POST in conversation c1 returns 200,
appends msgM1, and emits no push. -/
theorem create_message_persists_without_fanout_witness :
    (create_message storeC1 none "c1" "u1" "hi" "m1" 10).2.2 = [] ∧
    (msgRespM1 = { id := "m1", id_chat := "c1", sender_id := "u1", content := "hi",
                   created_at := 10, msg_type := "text", attachments := none } ∧
     storeC1After.messages = storeC1.messages ++ [ msgM1 ]) :=
  ⟨(create_message_persists_without_fanout storeC1 none "c1" "u1" "hi" "m1" 10).1,
   (create_message_persists_without_fanout storeC1 none "c1" "u1" "hi" "m1" 10).2
     msgRespM1 storeC1After [] (by decide)⟩

/-- C6 amended: the POST handler never reads the authenticated identity —
its outcome is identical for any two authenticated users (or none) — and it
never answers 401: every response status is 200, 400 or 500. A body
sender_id differing from the authenticated user is processed like any
other request. -/
theorem create_message_ignores_auth_identity (st : Store) (a1 a2 : Option String)
    (cid sid body mid : String) (now : Nat) :
    create_message st a1 cid sid body mid now
      = create_message st a2 cid sid body mid now ∧
    ((create_message st a1 cid sid body mid now).1.status = 200 ∨
     (create_message st a1 cid sid body mid now).1.status = 400 ∨
     (create_message st a1 cid sid body mid now).1.status = 500) := by
  refine ⟨rfl, ?_⟩
  cases hr : (create_message st a1 cid sid body mid now).1 with
  | ok r => left; rfl
  | badRequest => right; left; rfl
  | serverError => right; right; rfl

/-- C7 amended: when no chat document carries the addressed conversation id,
POST /messages answers 400 — the combined existence-and-membership query
conflates the absent-conversation and non-member cases — with nothing
written, and GET /messages answers 200 with the (possibly empty) list of
matching messages rather than 404. -/
theorem absent_conversation_status (st : Store) (auth : Option String)
    (cid sid body mid : String) (now : Nat)
    (h : ∀ c ∈ st.chats, c.id_chat ≠ cid) :
    create_message st auth cid sid body mid now
      = (PostMessageResult.badRequest, st, []) ∧
    (get_messages st cid).1 = 200 := by
  have hfp : findOneChatWithParticipant st cid sid = none := by
    rw [findOneChatWithParticipant, List.find?_eq_none]
    intro c hc hp
    simp only [Bool.and_eq_true, beq_iff_eq] at hp
    exact h c hc hp.1
  exact ⟨by rw [create_message, hfp], rfl⟩

/-- C7 amended, witness: with an empty store, POST to the absent
conversation c9 answers 400 and GET answers 200. -/
theorem absent_conversation_status_witness :
    (create_message storeEmpty none "c9" "u1" "hi" "m1" 10
      = (PostMessageResult.badRequest, storeEmpty, [])) ∧
    (get_messages storeEmpty "c9").1 = 200 :=
  absent_conversation_status storeEmpty none "c9" "u1" "hi" "m1" 10 (by decide)

/-- C9 amended: no append path ever touches the "chats" collection — the
conversation document, and with it last_message_at, is left exactly as it
was by both the HTTP POST handler and the socket ClientMessage handler. -/
theorem append_never_updates_chat_doc (st : Store) (sess : Sessions)
    (auth : Option String) (cid sid body mid : String) (now : Nat)
    (msg : ClientMessage) (nid : String) (t : Nat) :
    ((create_message st auth cid sid body mid now).2.1).chats = st.chats ∧
    ((handleClientMessage st sess msg nid t).1).chats = st.chats := by
  constructor
  · cases hfp : findOneChatWithParticipant st cid sid with
    | none => simp [create_message, hfp]
    | some c0 =>
      cases hc : findOneChat st cid with
      | none => simp [create_message, handleCreateMessage, hfp, hc]
      | some chat =>
        by_cases hmem : sid ∈ chat.participants
        · simp [create_message, handleCreateMessage, hfp, hc, hmem]
        · simp [create_message, handleCreateMessage, hfp, hc, hmem]
  · cases hc : findOneChat st msg.id_chat with
    | none => simp [handleClientMessage, hc]
    | some chat =>
      by_cases hmem : msg.sender_id ∈ chat.participants
      · simp [handleClientMessage, hc, hmem]
      · simp [handleClientMessage, hc, hmem]

end Taskline
